import Mathlib

/-!
Verification development for the TeamworkMissiveConnector ingest pipeline.

Shallow embedding of the parts of the source relevant to the checked
properties: the backfill checkpoint reconciler (`src/startup.py`), the
dispatcher batch path (`src/workers/dispatcher.py`), the resilient database
session (`src/db/postgres_connection.py`), the webhook receiver
(`src/app.py`, `src/http/security.py`) and the durable queue
(`src/queue/postgres_queue.py`).

Conventions: instants are integers (seconds since the Unix epoch, or
milliseconds where stated); Python `None` is `Option.none`; a Python
exception is modelled explicitly (as an `Except.error` or as a dedicated
constructor carrying its connection/logic classification); raw byte strings
are `List Nat`.
-/

namespace TWMC

/-- Instants as integer seconds since the Unix epoch. -/
abbrev Timestamp := Int

/-! ## Backfill checkpoint advance (src/startup.py)

`StartupManager._backfill_teamwork` (lines 229-249) and
`StartupManager._backfill_missive` (lines 300-320) share the same
checkpoint-advance logic, embedded once below. -/

/-- From `StartupManager._backfill_teamwork` / `_backfill_missive`
(src/startup.py): after a successful poll, `latest_time` starts at
`datetime.now(timezone.utc)` and is raised to each returned record's parsed
`updatedAt` (`updated_at` for the mail source) whenever that is strictly
greater; a record whose timestamp is absent or unparsable (`none` here) is
skipped.  The previous checkpoint is *not* read at this stage: the written
`last_event_time` depends only on `now` and the timestamps seen. -/
def backfillNewCheckpoint (now : Timestamp) (seen : List (Option Timestamp)) : Timestamp :=
  seen.foldl (fun acc t? =>
    match t? with
    | some t => if t > acc then t else acc
    | none => acc) now

/-! ## Backfill window start (src/startup.py, src/settings.py)

When no checkpoint exists, the `since` date may come from the
`<SOURCE>_PROCESS_AFTER` setting, parsed by
`datetime.strptime(value, "%d.%m.%Y")`.  CPython's `strptime` matches `%d`
against `3[01]|[12]\d|0[1-9]|[1-9]| [1-9]`, `%m` against `1[0-2]|0[1-9]|[1-9]`
and `%Y` against exactly four digits, requires the whole string to be
consumed, and then lets the `datetime` constructor reject day-out-of-range
and year-zero values.  The token parsers below embed those regexes. -/

/-- Numeric value of a decimal digit character. -/
def digitVal (c : Char) : Nat := c.toNat - '0'.toNat

/-- Split a character list at every `'.'`, the literal separator of the
`"%d.%m.%Y"` format string. -/
def splitOnDot : List Char → List (List Char)
  | [] => [[]]
  | c :: cs =>
    let rest := splitOnDot cs
    if c = '.' then [] :: rest
    else
      match rest with
      | r :: rs => (c :: r) :: rs
      | [] => [[c]]

/-- Day field of `%d.%m.%Y`: one digit `1`-`9`, or two characters matching
`3[01]|[12]\d|0[1-9]| [1-9]`. -/
def parseDayToken : List Char → Option Nat
  | [c] => if '1' ≤ c ∧ c ≤ '9' then some (digitVal c) else none
  | [c₁, c₂] =>
    if c₁ = ' ' ∨ c₁ = '0' then
      if '1' ≤ c₂ ∧ c₂ ≤ '9' then some (digitVal c₂) else none
    else if c₁.isDigit ∧ c₂.isDigit then
      let v := 10 * digitVal c₁ + digitVal c₂
      if 10 ≤ v ∧ v ≤ 31 then some v else none
    else none
  | _ => none

/-- Month field of `%d.%m.%Y`: `1[0-2]|0[1-9]|[1-9]`. -/
def parseMonthToken : List Char → Option Nat
  | [c] => if '1' ≤ c ∧ c ≤ '9' then some (digitVal c) else none
  | [c₁, c₂] =>
    if c₁ = '0' then
      if '1' ≤ c₂ ∧ c₂ ≤ '9' then some (digitVal c₂) else none
    else if c₁ = '1' then
      if '0' ≤ c₂ ∧ c₂ ≤ '2' then some (10 + digitVal c₂) else none
    else none
  | _ => none

/-- Year field of `%d.%m.%Y`: exactly four digits. -/
def parseYearToken : List Char → Option Nat
  | [a, b, c, d] =>
    if a.isDigit ∧ b.isDigit ∧ c.isDigit ∧ d.isDigit then
      some (1000 * digitVal a + 100 * digitVal b + 10 * digitVal c + digitVal d)
    else none
  | _ => none

/-- Gregorian leap-year test, as used by `datetime`. -/
def isLeapYear (y : Nat) : Bool := y % 4 = 0 ∧ (y % 100 ≠ 0 ∨ y % 400 = 0)

/-- Number of days in a month of a given year. -/
def daysInMonth (y m : Nat) : Nat :=
  if m = 2 then (if isLeapYear y then 29 else 28)
  else if m = 4 ∨ m = 6 ∨ m = 9 ∨ m = 11 then 30
  else 31

/-- Model of `datetime.strptime(s, "%d.%m.%Y")`: `some (day, month, year)`
when the string parses to a valid Gregorian date with year 1..9999, `none`
when a `ValueError` is raised. -/
def strptimeDMY (s : String) : Option (Nat × Nat × Nat) :=
  match splitOnDot s.toList with
  | [ds, ms, ys] =>
    match parseDayToken ds, parseMonthToken ms, parseYearToken ys with
    | some d, some m, some y =>
      if 1 ≤ y ∧ d ≤ daysInMonth y m then some (d, m, y) else none
    | _, _, _ => none
  | _ => none

/-- Days from 0000-03-01 to year `y`, month `m`, day `d` (proleptic
Gregorian, years 1..9999), by the standard civil-calendar computation. -/
def daysSinceCivilZero (y m d : Nat) : Nat :=
  let y' := if m ≤ 2 then y - 1 else y
  let era := y' / 400
  let yoe := y' % 400
  let mp := if m > 2 then m - 3 else m + 9
  let doy := (153 * mp + 2) / 5 + d - 1
  let doe := yoe * 365 + yoe / 4 - yoe / 100 + doy
  era * 146097 + doe

/-- UTC midnight of a Gregorian date, as seconds since the Unix epoch
(1970-01-01 is day 719468 after 0000-03-01).  This is the value of
`datetime(y, m, d, tzinfo=timezone.utc).timestamp()`. -/
def epochSecondsOfDate (y m d : Nat) : Timestamp :=
  ((daysSinceCivilZero y m d : Int) - 719468) * 86400

/-- Seconds in a day, for `timedelta(days=n)`. -/
def secondsPerDay : Int := 86400

/-- From `StartupManager._backfill_teamwork` / `_backfill_missive`
(src/startup.py lines 177-207 and 255-276): the lower bound of a backfill
poll window.  With a checkpoint `(some t)` it is
`last_event_time - timedelta(seconds=BACKFILL_OVERLAP_SECONDS)`.  Without
one, a truthy (non-empty) `<SOURCE>_PROCESS_AFTER` value is parsed as
`%d.%m.%Y` and used as a UTC date; when it is unset, empty, or fails to
parse, the window falls back to `now - defaultLookbackDays` (30 days for
Missive, 5475 days for Teamwork). -/
def backfillSince (overlapSeconds : Int) (defaultLookbackDays : Int)
    (processAfter : Option String) (checkpoint : Option Timestamp)
    (now : Timestamp) : Timestamp :=
  match checkpoint with
  | some t => t - overlapSeconds
  | none =>
    match processAfter with
    | some s =>
      if s = "" then now - defaultLookbackDays * secondsPerDay
      else
        match strptimeDMY s with
        | some (d, m, y) => epochSecondsOfDate y m d
        | none => now - defaultLookbackDays * secondsPerDay
    | none => now - defaultLookbackDays * secondsPerDay

/-- Teamwork backfill window start (src/startup.py lines 177-207): 15-year
(5475-day) default lookback. -/
def teamworkBackfillSince (overlapSeconds : Int) (processAfter : Option String)
    (checkpoint : Option Timestamp) (now : Timestamp) : Timestamp :=
  backfillSince overlapSeconds 5475 processAfter checkpoint now

/-- Missive backfill window start (src/startup.py lines 255-276): 30-day
default lookback. -/
def missiveBackfillSince (overlapSeconds : Int) (processAfter : Option String)
    (checkpoint : Option Timestamp) (now : Timestamp) : Timestamp :=
  backfillSince overlapSeconds 30 processAfter checkpoint now

/-! ## Unix-timestamp conversion (src/db/postgres_connection.py) -/

/-- Model of `datetime.fromtimestamp` applied to an instant given in integer
milliseconds: it yields that instant when the corresponding date lies in
Python's representable year range 1..9999 and raises (here: `none`)
otherwise.  The bounds are the epoch milliseconds of 0001-01-01T00:00:00 and
9999-12-31T23:59:59.999. -/
def fromtimestampMs (ms : Int) : Option Int :=
  if -62135596800000 ≤ ms ∧ ms ≤ 253402300799999 then some ms else none

/-- From `PostgresConnection._convert_unix_timestamp`
(src/db/postgres_connection.py lines 349-361): `None` maps to `None`; an
integer strictly greater than 10000000000 is taken to already be in
milliseconds, anything else is taken to be in seconds and scaled by 1000.
The result is the produced instant in milliseconds since the epoch, `none`
when `datetime.fromtimestamp` raises. -/
def convert_unix_timestamp : Option Int → Option Int
  | none => none
  | some t => if t > 10000000000 then fromtimestampMs t else fromtimestampMs (t * 1000)

/-! ## Dispatcher batch processing (src/workers/dispatcher.py)

A database upsert call (`upsert_tasks_batch`, already wrapped in the
session's own retry layer) either returns, or raises an exception whose
connection/logic classification is the one `is_connection_error`-style
checks would assign to it. -/

/-- Outcome of one database upsert call as observed by the dispatcher. -/
inductive DbCallResult where
  | ok : DbCallResult
  | exn (isConnectionError : Bool) : DbCallResult
deriving DecidableEq

/-- Queue-state transition the dispatcher applies to one dequeued item:
acked via `mark_item_completed`, marked failed with retry via
`mark_item_failed(..., retry=True)`, or left in `processing` (no call). -/
inductive ItemOutcome where
  | completed
  | failedRetry
  | stillProcessing
deriving DecidableEq

/-- From `WorkerDispatcher._process_teamwork_items_individually`
(src/workers/dispatcher.py lines 314-342): a pair with no task (deletion
events) is acked completed; a pair whose individual upsert succeeds is
acked completed; a pair whose individual upsert raises is marked failed
with retry.  Each pair is `none` when the handler produced no task, and
`some r` with `r` the result of its individual `upsert_tasks_batch([task])`
call. -/
def processTeamworkItemIndividually : Option DbCallResult → ItemOutcome
  | none => .completed
  | some .ok => .completed
  | some (.exn _) => .failedRetry

/-- From `WorkerDispatcher._process_batch`, Teamwork group
(src/workers/dispatcher.py lines 203-253): when no pair carries a task, all
items are acked completed without touching the database; otherwise the
batch upsert runs, and on success all items are acked completed, while on
*any* exception — its connection/logic classification is not inspected —
the dispatcher falls back to per-item processing.  `batchResult` is the
outcome the batch `upsert_tasks_batch(tasks)` call would have, and each
element of `pairs` the outcome its individual upsert would have. -/
def processTeamworkGroup (batchResult : DbCallResult)
    (pairs : List (Option DbCallResult)) : List ItemOutcome :=
  if pairs.all (fun p => p.isNone) then
    pairs.map (fun _ => .completed)
  else
    match batchResult with
    | .ok => pairs.map (fun _ => .completed)
    | .exn _ => pairs.map processTeamworkItemIndividually

/-! ## Resilient session retry (src/db/postgres_connection.py) -/

/-- The three settings the retry loops read.  `src/settings.py` in this
snapshot does not bind `DB_OPERATION_RETRIES`, `DB_RECONNECT_DELAY` or
`DB_MAX_RECONNECT_DELAY` to defaults, so they are carried as explicit
parameters here, exactly as the retry code reads them from the `settings`
module. -/
structure DbSettings where
  operationRetries : Nat
  reconnectDelay : Nat
  maxReconnectDelay : Nat

/-- Outcome of one attempt of the wrapped operation: a returned value, or
an exception classified by `is_connection_error` (driver error type plus
message-substring denylist). -/
inductive OpOutcome (α : Type) where
  | ok (value : α)
  | exn (isConnectionError : Bool)

/-- Observable trace of one `execute_with_retry` call: the surfaced result
(`Except.error isConnectionError` when the exception is re-raised to the
caller), the number of rollbacks performed, and the backoff delays slept
between attempts, in order. -/
structure RetryTrace (α : Type) where
  result : Except Bool α
  rollbacks : Nat
  sleeps : List Nat

/-- Loop body of `PostgresConnection.execute_with_retry`
(src/db/postgres_connection.py lines 207-255), recursing on the retries
still allowed.  `outcomes i` is what attempt `i` does.  On success the
value is returned.  On a connection-classified exception the session rolls
back, sleeps `delay`, marks the connection invalid, doubles the delay
capping it at `cap`, and retries — unless no retries remain, in which case
the exception is re-raised.  On a non-connection exception the session
rolls back and re-raises immediately. -/
def executeWithRetryGo (cap : Nat) (outcomes : Nat → OpOutcome α) :
    Nat → Nat → Nat → RetryTrace α
  | 0, attempt, _ =>
    match outcomes attempt with
    | .ok v => ⟨.ok v, 0, []⟩
    | .exn true => ⟨.error true, 1, []⟩
    | .exn false => ⟨.error false, 1, []⟩
  | r + 1, attempt, delay =>
    match outcomes attempt with
    | .ok v => ⟨.ok v, 0, []⟩
    | .exn true =>
      let rest := executeWithRetryGo cap outcomes r (attempt + 1) (min (delay * 2) cap)
      ⟨rest.result, rest.rollbacks + 1, delay :: rest.sleeps⟩
    | .exn false => ⟨.error false, 1, []⟩

/-- `PostgresConnection.execute_with_retry` (src/db/postgres_connection.py
lines 207-255): up to `DB_OPERATION_RETRIES` retries beyond the first
attempt, starting from delay `DB_RECONNECT_DELAY` capped at
`DB_MAX_RECONNECT_DELAY`. -/
def execute_with_retry (s : DbSettings) (outcomes : Nat → OpOutcome α) : RetryTrace α :=
  executeWithRetryGo s.maxReconnectDelay outcomes s.operationRetries 0 s.reconnectDelay

/-! ## Durable queue public operations (src/queue/postgres_queue.py) -/

/-- `PostgresQueue._execute_with_retry` (src/queue/postgres_queue.py lines
46-101): same loop as the session's, but with a fallback result.  When the
final connection-classified attempt fails, or a non-connection exception
occurs, a non-`None` fallback is returned instead of re-raising; only with
fallback `None` does the exception propagate (`Except.error` carries its
classification). -/
def queueExecuteWithRetryGo (outcomes : Nat → OpOutcome α) (fallback : Option α) :
    Nat → Nat → Except Bool α
  | 0, attempt =>
    match outcomes attempt with
    | .ok v => .ok v
    | .exn true =>
      match fallback with
      | some fb => .ok fb
      | none => .error true
    | .exn false =>
      match fallback with
      | some fb => .ok fb
      | none => .error false
  | r + 1, attempt =>
    match outcomes attempt with
    | .ok v => .ok v
    | .exn true => queueExecuteWithRetryGo outcomes fallback r (attempt + 1)
    | .exn false =>
      match fallback with
      | some fb => .ok fb
      | none => .error false

/-- `PostgresQueue._execute_with_retry` entered at attempt 0 with
`DB_OPERATION_RETRIES` retries allowed. -/
def queue_execute_with_retry (s : DbSettings) (outcomes : Nat → OpOutcome α)
    (fallback : Option α) : Except Bool α :=
  queueExecuteWithRetryGo outcomes fallback s.operationRetries 0

/-- Shape shared by every public `PostgresQueue` method: run the operation
through `_execute_with_retry` with a non-`None` fallback, and additionally
wrap the call in `try/except` returning the same fallback, so the caller
always gets a value. -/
def queuePublicMethod (s : DbSettings) (outcomes : Nat → OpOutcome α) (fb : α) : α :=
  match queue_execute_with_retry s outcomes (some fb) with
  | .ok v => v
  | .error _ => fb

/-- `PostgresQueue.enqueue` (lines 103-132): fallback `False`. -/
def postgresQueueEnqueue (s : DbSettings) (outcomes : Nat → OpOutcome Bool) : Bool :=
  queuePublicMethod s outcomes false

/-- `PostgresQueue.enqueue_batch` (lines 134-167): `True` for an empty item
list without touching the database, otherwise fallback `False`. -/
def postgresQueueEnqueueBatch (s : DbSettings) (itemsEmpty : Bool)
    (outcomes : Nat → OpOutcome Bool) : Bool :=
  if itemsEmpty then true else queuePublicMethod s outcomes false

/-- `PostgresQueue.dequeue_batch` (lines 169-209): fallback `[]`; `β` is the
row type returned by the server-side `dequeue_items` function. -/
def postgresQueueDequeueBatch (β : Type) (s : DbSettings)
    (outcomes : Nat → OpOutcome (List β)) : List β :=
  queuePublicMethod s outcomes []

/-- `PostgresQueue.mark_item_completed` (lines 220-246): items lacking a
`_db_id` return `False` before any database call; otherwise fallback
`False`. -/
def postgresQueueMarkItemCompleted (hasDbId : Bool) (s : DbSettings)
    (outcomes : Nat → OpOutcome Bool) : Bool :=
  if hasDbId then queuePublicMethod s outcomes false else false

/-- `PostgresQueue.mark_item_failed` (lines 259-286): items lacking a
`_db_id` return `False` before any database call; otherwise fallback
`False`. -/
def postgresQueueMarkItemFailed (hasDbId : Bool) (s : DbSettings)
    (outcomes : Nat → OpOutcome Bool) : Bool :=
  if hasDbId then queuePublicMethod s outcomes false else false

/-- Per-source row of the `queue_health` view (src/queue/postgres_queue.py
lines 295-321), also the per-source entry of `/health`'s `queue_details`. -/
structure SourceHealth where
  pending : Nat
  processing : Nat
  failed : Nat
  dead_letter : Nat
  avg_processing_time_ms : Int
  stuck_items : Nat
deriving DecidableEq

/-- `PostgresQueue.get_queue_health` (lines 288-327): fallback the empty
dict, modelled as the empty association list. -/
def postgresQueueGetQueueHealth (s : DbSettings)
    (outcomes : Nat → OpOutcome (List (String × SourceHealth))) :
    List (String × SourceHealth) :=
  queuePublicMethod s outcomes []

/-- `PostgresQueue.cleanup_old_items` (lines 329-352): fallback `0`. -/
def postgresQueueCleanupOldItems (s : DbSettings) (outcomes : Nat → OpOutcome Nat) : Nat :=
  queuePublicMethod s outcomes 0

/-- `PostgresQueue.reset_stuck_items` (lines 354-378): fallback `0`. -/
def postgresQueueResetStuckItems (s : DbSettings) (outcomes : Nat → OpOutcome Nat) : Nat :=
  queuePublicMethod s outcomes 0

/-! ## Webhook signature verification (src/http/security.py)

The raw request body is a byte string; `hmacSha256Hex secret payload`
abstracts `hmac.new(secret.encode(), payload, hashlib.sha256).hexdigest()`,
whose output is a 64-character hex string and in particular never empty.
`hmac.compare_digest` on `str` arguments decides exactly string equality
(its constant-time execution is a timing property with no functional
content). -/

/-- Raw request bodies as byte strings. -/
abbrev Bytes := List Nat

/-- From `verify_teamwork_webhook` (src/http/security.py lines 10-39):
with no secret configured (the empty string is falsy) every request passes;
otherwise a missing or empty signature header fails, and a present one is
compared against the hex digest. -/
def verify_teamwork_webhook (hmacSha256Hex : String → Bytes → String)
    (secret : String) (payload : Bytes) (signature : Option String) : Bool :=
  if secret = "" then true
  else
    match signature with
    | none => false
    | some s => if s = "" then false else s = hmacSha256Hex secret payload

/-- From `verify_missive_webhook` (src/http/security.py lines 42-71): same
logic against `MISSIVE_WEBHOOK_SECRET`. -/
def verify_missive_webhook (hmacSha256Hex : String → Bytes → String)
    (secret : String) (payload : Bytes) (signature : Option String) : Bool :=
  if secret = "" then true
  else
    match signature with
    | none => false
    | some s => if s = "" then false else s = hmacSha256Hex secret payload

/-! ## Webhook handlers (src/app.py) -/

/-- Python's `a or b` over two optional strings (an empty string is falsy,
so it falls through to `b`). -/
def pyOrStr (a b : Option String) : Option String :=
  match a with
  | some s => if s = "" then b else some s
  | none => b

/-- Truthiness filter on an optional string (`if not x` rejects both `None`
and the empty string). -/
def truthyStr : Option String → Option String
  | some s => if s = "" then none else some s
  | none => none

/-- First value bound to a key in an association-list dictionary. -/
def assocLookup (l : List (String × α)) (k : String) : Option α :=
  match l.find? (fun p => p.1 = k) with
  | some p => some p.2
  | none => none

/-- State of `db_manager`/queue at enqueue time, covering the three ways
the enqueue path can go in the handlers. -/
inductive QueueState where
  | noQueue        -- `db_manager.get_queue()` returned `None`
  | enqueueFailed  -- `queue.enqueue(item)` returned `False`
  | enqueueOk      -- `queue.enqueue(item)` returned `True`
deriving DecidableEq

/-- HTTP response of a webhook handler: status code, the `status` field of
the JSON body when present (`"accepted"` on success), and the queue rows
added, each `(source, event_type, external_id)`. -/
structure WebhookResponse where
  status : Nat
  bodyStatusField : Option String
  enqueued : List (String × String × String)
deriving DecidableEq

/-- From `teamwork_webhook` (src/app.py lines 150-206): verify the
signature (401 on failure), require a non-empty form dict (400), extract
`Task.ID` falling back to `ID` with Python truthiness (400 when absent),
then enqueue `("teamwork", "task.updated", task_id)` — 503 when the
database is unavailable or the enqueue reports failure, 200 with
`status: "accepted"` on success. -/
def teamwork_webhook (hmacSha256Hex : String → Bytes → String) (secret : String)
    (queueState : QueueState) (payload : Bytes) (signature : Option String)
    (formData : List (String × String)) : WebhookResponse :=
  if ¬ verify_teamwork_webhook hmacSha256Hex secret payload signature then
    ⟨401, none, []⟩
  else if formData = [] then
    ⟨400, none, []⟩
  else
    match truthyStr (pyOrStr (assocLookup formData "Task.ID") (assocLookup formData "ID")) with
    | none => ⟨400, none, []⟩
    | some taskId =>
      match queueState with
      | .noQueue => ⟨503, none, []⟩
      | .enqueueFailed => ⟨503, none, []⟩
      | .enqueueOk => ⟨200, some "accepted", [("teamwork", "task.updated", taskId)]⟩

/-! ## Missive payload extraction (src/app.py) -/

/-- JSON-ish values of a parsed Missive webhook body: string leaves and
nested objects.  (Other JSON leaf kinds do not occur at the fields the
handler consults.) -/
inductive MVal where
  | str (s : String)
  | dict (fields : List (String × MVal))

/-- Python truthiness of such a value: empty strings and empty dicts are
falsy. -/
def pyTruthy : MVal → Bool
  | .str s => s != ""
  | .dict fields => !fields.isEmpty

/-- Python `str()` of such a value.  On a string it is the identity; on a
dict Python would render its `repr`, modelled as a fixed non-empty marker —
the webhook id fields the handler reads are strings, and no claim depends
on the marker's text. -/
def pyStr : MVal → String
  | .str s => s
  | .dict _ => "<dict>"

/-- Python `key in d and d.get(key)`: the value bound to `key` when that
value is truthy. -/
def truthyField (d : List (String × MVal)) (k : String) : Option MVal :=
  match assocLookup d k with
  | some v => if pyTruthy v then some v else none
  | none => none

/-- From `_extract_missive_id` (src/app.py lines 271-288): prefer
`conversation.id` (when `conversation` is a dict with a truthy `id`), then
top-level `conversation_id`, then `conversationId`, then — when `message`
is a dict — `message.conversation_id`, then `message.conversationId`;
otherwise the empty string. -/
def extract_missive_id (data : List (String × MVal)) : String :=
  match
    (match assocLookup data "conversation" with
     | some (.dict conv) => truthyField conv "id"
     | _ => none) with
  | some cid => pyStr cid
  | none =>
    match truthyField data "conversation_id" with
    | some v => pyStr v
    | none =>
      match truthyField data "conversationId" with
      | some v => pyStr v
      | none =>
        match assocLookup data "message" with
        | some (.dict msg) =>
          (match truthyField msg "conversation_id" with
           | some v => pyStr v
           | none =>
             match truthyField msg "conversationId" with
             | some v => pyStr v
             | none => "")
        | _ => ""

/-- The extraction priority list exactly as the specification words it
(`conversation.id` else `conversation_id` else `conversationId` else
`message.conversation_id` — four keys, without a `message.conversationId`
fallback), for comparison with `extract_missive_id`. -/
def claimedExtractMissiveId (data : List (String × MVal)) : String :=
  match
    (match assocLookup data "conversation" with
     | some (.dict conv) => truthyField conv "id"
     | _ => none) with
  | some cid => pyStr cid
  | none =>
    match truthyField data "conversation_id" with
    | some v => pyStr v
    | none =>
      match truthyField data "conversationId" with
      | some v => pyStr v
      | none =>
        match assocLookup data "message" with
        | some (.dict msg) =>
          (match truthyField msg "conversation_id" with
           | some v => pyStr v
           | none => "")
        | _ => ""

/-- From `missive_webhook` (src/app.py lines 209-268): verify the signature
(401), require a JSON body parsing to a non-empty dict (400), read
`event` else `type` else `"unknown"` as the event type, extract the
conversation id (400 when empty), then enqueue — 503 when the database is
unavailable or the enqueue reports failure, 200 with `status: "accepted"`
on success. -/
def missive_webhook (hmacSha256Hex : String → Bytes → String) (secret : String)
    (queueState : QueueState) (payload : Bytes) (signature : Option String)
    (body : Option (List (String × MVal))) : WebhookResponse :=
  if ¬ verify_missive_webhook hmacSha256Hex secret payload signature then
    ⟨401, none, []⟩
  else
    match body with
    | none => ⟨400, none, []⟩
    | some data =>
      if data.isEmpty then ⟨400, none, []⟩
      else
        let eventType :=
          match assocLookup data "event" with
          | some v => pyStr v
          | none =>
            match assocLookup data "type" with
            | some v => pyStr v
            | none => "unknown"
        let externalId := extract_missive_id data
        if externalId = "" then ⟨400, none, []⟩
        else
          match queueState with
          | .noQueue => ⟨503, none, []⟩
          | .enqueueFailed => ⟨503, none, []⟩
          | .enqueueOk => ⟨200, some "accepted", [("missive", eventType, externalId)]⟩

/-! ## Health endpoint (src/app.py) -/

/-- Values of the `/health` JSON object. -/
inductive HealthVal where
  | str (s : String)
  | boolVal (b : Bool)
  | natVal (n : Nat)
  | details (d : List (String × SourceHealth))

/-- From `health` (src/app.py lines 122-147): `queueHealth` is
`some metrics` when a queue instance exists and its `get_queue_health()`
returned, `none` when the database is unavailable or the fetch raised (the
metrics then stay `{}`).  `queue_pending` sums the per-source `pending`
counts; `status` is `"healthy"` when the database is available and
`"degraded"` otherwise; the five fields are always emitted. -/
def healthEndpoint (dbAvailable : Bool) (timestamp : String)
    (queueHealth : Option (List (String × SourceHealth))) :
    List (String × HealthVal) :=
  let metrics := match queueHealth with | some m => m | none => []
  let totalPending := (metrics.map (fun p => p.2.pending)).sum
  let status := if dbAvailable then "healthy" else "degraded"
  [("status", .str status),
   ("database_available", .boolVal dbAvailable),
   ("timestamp", .str timestamp),
   ("queue_pending", .natVal totalPending),
   ("queue_details", .details metrics)]

/-- The candidate id fields of a Missive webhook body in the order
`_extract_missive_id` consults them: `conversation.id` (when
`conversation` is a dict), top-level `conversation_id`, top-level
`conversationId`, and — when `message` is a dict — `message.conversation_id`
and `message.conversationId`; each entry is the field's value when present
and truthy. -/
def missivePriorityFields (data : List (String × MVal)) : List (Option MVal) :=
  [(match assocLookup data "conversation" with
    | some (.dict conv) => truthyField conv "id"
    | _ => none),
   truthyField data "conversation_id",
   truthyField data "conversationId",
   (match assocLookup data "message" with
    | some (.dict msg) => truthyField msg "conversation_id"
    | _ => none),
   (match assocLookup data "message" with
    | some (.dict msg) => truthyField msg "conversationId"
    | _ => none)]

/-! ## Helper lemmas -/

/-- The checkpoint fold step `if t > acc then t else acc` computes `max`. -/
lemma iteGtEqMax (a b : Int) : (if b > a then b else a) = max a b := by
  rcases lt_or_le a b with h | h
  · rw [if_pos h, max_eq_right h.le]
  · rw [if_neg (not_lt.mpr h), max_eq_left h]

/-- A `max`-fold only grows its initial value. -/
lemma le_foldlMax (l : List Int) : ∀ a : Int, a ≤ l.foldl max a := by
  induction l with
  | nil => intro a; exact le_refl a
  | cons x xs ih => intro a; exact le_trans (le_max_left a x) (ih (max a x))

/-- Irrelevance of an inner cap under further doubling: capping the base
first does not change a capped multiple. -/
lemma minMulPowCap (a cap k : Nat) : min (min a cap * 2 ^ k) cap = min (a * 2 ^ k) cap := by
  rcases le_total a cap with h | h
  · rw [min_eq_left h]
  · have hpow : 1 ≤ 2 ^ k := Nat.one_le_two_pow
    have h1 : cap ≤ cap * 2 ^ k := le_mul_of_one_le_right (Nat.zero_le cap) hpow
    have h2 : cap ≤ a * 2 ^ k := le_trans h (le_mul_of_one_le_right (Nat.zero_le a) hpow)
    rw [min_eq_right h, min_eq_right h1, min_eq_right h2]

/-! ## Claim C1 — checkpoint advance after a successful poll -/

/-- Claim C1, counterexample: with a stored checkpoint `T = 100`, a
successful poll at `now() = 50` that returns zero records writes checkpoint
`backfillNewCheckpoint 50 [] = 50`, which is strictly below `T`: the stored
`last_event_time` moves backwards, so it is not `max(T, latest_seen, now)`
and is not non-decreasing across successful polls when `T` exceeds both
`now()` and every timestamp seen. -/
theorem backfill_checkpoint_decreases_on_late_checkpoint :
    backfillNewCheckpoint 50 [] = 50 ∧ backfillNewCheckpoint 50 [] < 100 := by
  refine ⟨rfl, ?_⟩
  decide

/-- Claim C1, amended: after every successful backfill poll the stored
checkpoint equals `max(now(), latest_updated_at_seen)` — the previous
checkpoint `T` is not part of the maximum — and consequently
`last_event_time` is non-decreasing across consecutive successful polls
whenever the previous checkpoint does not exceed the later poll's `now()`. -/
theorem backfill_checkpoint_advances_to_max_of_now_and_seen
    (now : Timestamp) (seen : List (Option Timestamp)) :
    backfillNewCheckpoint now seen = (seen.filterMap id).foldl max now
    ∧ ∀ T : Timestamp, T ≤ now → T ≤ backfillNewCheckpoint now seen := by
  have hfold : ∀ (l : List (Option Timestamp)) (a : Timestamp),
      l.foldl (fun acc t? =>
        match t? with
        | some t => if t > acc then t else acc
        | none => acc) a = (l.filterMap id).foldl max a := by
    intro l
    induction l with
    | nil => intro a; rfl
    | cons x xs ih =>
      intro a
      cases x with
      | none => simpa using ih a
      | some t => simpa [iteGtEqMax] using ih (max a t)
  refine ⟨hfold seen now, ?_⟩
  intro T hT
  calc T ≤ now := hT
    _ ≤ (seen.filterMap id).foldl max now := le_foldlMax _ now
    _ = backfillNewCheckpoint now seen := (hfold seen now).symm

/-- Concrete instance of the amended C1 theorem: previous checkpoint 1 is
below `now() = 2`, so the new checkpoint (here 5, from a record seen at 5)
does not decrease. -/
theorem backfill_checkpoint_advances_witness :
    (1 : Int) ≤ backfillNewCheckpoint 2 [some 5, none] :=
  (backfill_checkpoint_advances_to_max_of_now_and_seen 2 [some 5, none]).2 1 (by decide)

/-! ## Claim C2 — dispatcher handling of batch-upsert failures -/

/-- Claim C2, counterexample: a batch upsert failing with a
connection-classified error on a one-item group whose individual upsert
succeeds ends with the item acked completed — not left `processing` for the
visibility timeout, as the claim requires for connection-class errors. -/
theorem dispatcher_batch_conn_error_still_acks :
    processTeamworkGroup (.exn true) [some .ok] = [.completed]
    ∧ processTeamworkGroup (.exn true) [some .ok] ≠ [.stillProcessing] := by
  decide

/-- Claim C2, amended: when the dispatcher's batch upsert of a group fails,
the error's connection/logic classification is not consulted: for any
classification the dispatcher falls back to per-item upsert, acking each
item that succeeds individually (or carried no task) and marking each
failing item failed with retry; no item of the group is ever left in
`processing` by this path. -/
theorem dispatcher_batch_failure_falls_back_per_item
    (c : Bool) (pairs : List (Option DbCallResult)) :
    processTeamworkGroup (.exn c) pairs = pairs.map processTeamworkItemIndividually
    ∧ (processTeamworkGroup (.exn c) pairs).all (fun o => o != .stillProcessing) = true := by
  have hmap : processTeamworkGroup (.exn c) pairs = pairs.map processTeamworkItemIndividually := by
    unfold processTeamworkGroup
    by_cases hall : pairs.all (fun p => p.isNone) = true
    · rw [if_pos hall]
      refine List.map_congr_left ?_
      intro p hp
      have hnone : p.isNone = true := by
        have := List.all_eq_true.mp hall p hp
        simpa using this
      cases p with
      | none => rfl
      | some v => simp at hnone
    · rw [if_neg hall]
  refine ⟨hmap, ?_⟩
  rw [hmap]
  rw [List.all_eq_true]
  intro o ho
  rcases List.mem_map.mp ho with ⟨p, _, hpo⟩
  cases p with
  | none => simp [← hpo, processTeamworkItemIndividually]
  | some r =>
    cases r with
    | ok => simp [← hpo, processTeamworkItemIndividually]
    | exn b => simp [← hpo, processTeamworkItemIndividually]

/-! ## Claim C6 — health endpoint shape -/

/-- Claim C6: the `/health` response always carries exactly the fields
`status`, `database_available`, `timestamp`, `queue_pending` and
`queue_details`, and its `status` is `"degraded"` precisely when
`database_available` is false, `"healthy"` otherwise. -/
theorem health_endpoint_fields_and_status (dbAvailable : Bool) (ts : String)
    (qh : Option (List (String × SourceHealth))) :
    (healthEndpoint dbAvailable ts qh).map Prod.fst =
      ["status", "database_available", "timestamp", "queue_pending", "queue_details"]
    ∧ (assocLookup (healthEndpoint dbAvailable ts qh) "status"
        = some (.str "degraded") ↔ dbAvailable = false)
    ∧ (dbAvailable = true →
        assocLookup (healthEndpoint dbAvailable ts qh) "status" = some (.str "healthy")) := by
  cases dbAvailable <;> simp [healthEndpoint, assocLookup, List.find?]

/-! ## Claim C9 — unix-timestamp magnitude heuristic -/

/-- Claim C9: the converter maps `None` to `None`; a representable integer
above 10,000,000,000 is read as milliseconds (the produced instant, in
milliseconds, is the input itself — so a seconds-valued stamp past year
2286 is reinterpreted), any other representable integer is read as seconds
(instant `t * 1000` milliseconds); out-of-range inputs yield `None`. -/
theorem convert_unix_timestamp_magnitude_heuristic :
    convert_unix_timestamp none = none
    ∧ (∀ t : Int, 10000000000 < t →
        -62135596800000 ≤ t ∧ t ≤ 253402300799999 →
        convert_unix_timestamp (some t) = some t)
    ∧ (∀ t : Int, t ≤ 10000000000 →
        -62135596800000 ≤ t * 1000 ∧ t * 1000 ≤ 253402300799999 →
        convert_unix_timestamp (some t) = some (t * 1000))
    ∧ (∀ t : Int, 10000000000 < t → ¬(-62135596800000 ≤ t ∧ t ≤ 253402300799999) →
        convert_unix_timestamp (some t) = none) := by
  refine ⟨rfl, ?_, ?_, ?_⟩
  · intro t ht hr
    simp only [convert_unix_timestamp, fromtimestampMs]
    rw [if_pos ht, if_pos hr]
  · intro t ht hr
    simp only [convert_unix_timestamp, fromtimestampMs]
    rw [if_neg (not_lt.mpr ht), if_pos hr]
  · intro t ht hr
    simp only [convert_unix_timestamp, fromtimestampMs]
    rw [if_pos ht, if_neg hr]

/-- Concrete instances of the C9 theorem: 1,700,000,000 (seconds, year
2023) is scaled by 1000; 1,700,000,000,000 (milliseconds, same instant) is
kept as is. -/
theorem convert_unix_timestamp_magnitude_witness :
    convert_unix_timestamp (some 1700000000) = some (1700000000 * 1000)
    ∧ convert_unix_timestamp (some 1700000000000) = some 1700000000000 :=
  ⟨convert_unix_timestamp_magnitude_heuristic.2.2.1 1700000000 (by decide) (by decide),
   convert_unix_timestamp_magnitude_heuristic.2.1 1700000000000 (by decide) (by decide)⟩

/-! ## Claim C3 — session retry wrapper semantics -/

/-- When every attempt raises a connection-classified error, the retry loop
performs one rollback per attempt, sleeps the doubling capped backoff
delays, and finally re-raises. -/
lemma executeWithRetryGo_allConn (cap : Nat) (outcomes : Nat → OpOutcome α)
    (hall : ∀ i, outcomes i = .exn true) :
    ∀ (r a d : Nat), d ≤ cap →
      executeWithRetryGo cap outcomes r a d =
        ⟨.error true, r + 1, (List.range r).map (fun i => min (d * 2 ^ i) cap)⟩ := by
  intro r
  induction r with
  | zero =>
    intro a d _
    simp [executeWithRetryGo, hall a]
  | succ r ih =>
    intro a d hd
    have hrec := ih (a + 1) (min (d * 2) cap) (min_le_right _ _)
    simp only [executeWithRetryGo, hall a]
    rw [hrec]
    simp only [RetryTrace.mk.injEq, true_and]
    rw [List.range_succ_eq_map, List.map_cons, List.map_map]
    congr 1
    · simp [min_eq_left hd]
    · refine List.map_congr_left ?_
      intro i _
      simp only [Function.comp_apply]
      rw [minMulPowCap]
      rw [pow_succ]
      ring_nf

/-- A successful attempt after `k` connection-classified failures, with at
least `k` retries still allowed, surfaces the attempt's value. -/
lemma executeWithRetryGo_okAfter (cap : Nat) (outcomes : Nat → OpOutcome α) (v : α) :
    ∀ (k r a d : Nat), k ≤ r → (∀ i, i < k → outcomes (a + i) = .exn true) →
      outcomes (a + k) = .ok v →
      (executeWithRetryGo cap outcomes r a d).result = .ok v := by
  intro k
  induction k with
  | zero =>
    intro r a d _ _ hok
    simp only [Nat.add_zero] at hok
    cases r <;> simp [executeWithRetryGo, hok]
  | succ k ih =>
    intro r a d hkr hpre hok
    have h0 : outcomes a = .exn true := by simpa using hpre 0 (Nat.succ_pos k)
    cases r with
    | zero => omega
    | succ r =>
      simp only [executeWithRetryGo, h0]
      exact ih r (a + 1) (min (d * 2) cap) (by omega)
        (fun i hi => by
          have := hpre (i + 1) (by omega)
          simpa [Nat.add_assoc, Nat.add_comm 1 i] using this)
        (by simpa [Nat.add_assoc, Nat.add_comm 1 k] using hok)

/-- Claim C3: `execute_with_retry` surfaces a non-connection error
immediately (one rollback, no sleeps, no further attempts); when every
attempt fails with a connection-classified error it rolls back each of the
`N + 1` attempts, sleeping delays that double from `DB_RECONNECT_DELAY`
capped at `DB_MAX_RECONNECT_DELAY` between them, and re-raises after the
final attempt, where `N` is the `DB_OPERATION_RETRIES` setting; and an
attempt succeeding after at most `N` connection-classified failures has its
value returned to the caller. -/
theorem execute_with_retry_semantics (s : DbSettings) (outcomes : Nat → OpOutcome α)
    (hdelay : s.reconnectDelay ≤ s.maxReconnectDelay) :
    (outcomes 0 = .exn false →
      execute_with_retry s outcomes = ⟨.error false, 1, []⟩)
    ∧ ((∀ i, outcomes i = .exn true) →
      execute_with_retry s outcomes =
        ⟨.error true, s.operationRetries + 1,
         (List.range s.operationRetries).map
           (fun i => min (s.reconnectDelay * 2 ^ i) s.maxReconnectDelay)⟩)
    ∧ (∀ k v, k ≤ s.operationRetries → (∀ i, i < k → outcomes i = .exn true) →
      outcomes k = .ok v → (execute_with_retry s outcomes).result = .ok v) := by
  refine ⟨?_, ?_, ?_⟩
  · intro h
    unfold execute_with_retry
    cases hr : s.operationRetries <;>
      simp [executeWithRetryGo, h]
  · intro hall
    exact executeWithRetryGo_allConn s.maxReconnectDelay outcomes hall
      s.operationRetries 0 s.reconnectDelay hdelay
  · intro k v hk hpre hok
    exact executeWithRetryGo_okAfter s.maxReconnectDelay outcomes v k
      s.operationRetries 0 s.reconnectDelay hk
      (fun i hi => by simpa using hpre i hi) (by simpa using hok)

/-- Concrete instance of the C3 theorem: with `DB_OPERATION_RETRIES = 2`,
initial delay 1 and cap 30, an operation that always raises a
connection-classified error is attempted three times, rolled back three
times, sleeps 1 s then 2 s, and the error is re-raised. -/
theorem execute_with_retry_semantics_witness :
    execute_with_retry ⟨2, 1, 30⟩ (fun _ => (OpOutcome.exn true : OpOutcome Unit))
      = ⟨.error true, 3, [1, 2]⟩ := by
  have h := (execute_with_retry_semantics ⟨2, 1, 30⟩
    (fun _ => (OpOutcome.exn true : OpOutcome Unit)) (by decide)).2.1 (fun _ => rfl)
  simpa using h

/-! ## Claim C10 — queue methods are total under database failures -/

/-- With a non-`None` fallback the queue retry loop always produces a
value: no exception propagates. -/
lemma queueGo_isOk (outcomes : Nat → OpOutcome α) (fb : α) :
    ∀ (r a : Nat), ∃ v, queueExecuteWithRetryGo outcomes (some fb) r a = .ok v := by
  intro r
  induction r with
  | zero =>
    intro a
    cases h : outcomes a with
    | ok v => exact ⟨v, by simp [queueExecuteWithRetryGo, h]⟩
    | exn c => cases c <;> exact ⟨fb, by simp [queueExecuteWithRetryGo, h]⟩
  | succ r ih =>
    intro a
    cases h : outcomes a with
    | ok v => exact ⟨v, by simp [queueExecuteWithRetryGo, h]⟩
    | exn c =>
      cases c with
      | true =>
        obtain ⟨v, hv⟩ := ih (a + 1)
        exact ⟨v, by simp [queueExecuteWithRetryGo, h, hv]⟩
      | false => exact ⟨fb, by simp [queueExecuteWithRetryGo, h]⟩

/-- When every attempt raises, the queue retry loop returns the fallback. -/
lemma queueGo_allFail (outcomes : Nat → OpOutcome α) (fb : α)
    (hall : ∀ i, ∃ c, outcomes i = .exn c) :
    ∀ (r a : Nat), queueExecuteWithRetryGo outcomes (some fb) r a = .ok fb := by
  intro r
  induction r with
  | zero =>
    intro a
    obtain ⟨c, hc⟩ := hall a
    cases c <;> simp [queueExecuteWithRetryGo, hc]
  | succ r ih =>
    intro a
    obtain ⟨c, hc⟩ := hall a
    cases c with
    | true => simp [queueExecuteWithRetryGo, hc, ih (a + 1)]
    | false => simp [queueExecuteWithRetryGo, hc]

/-- Claim C10: every public `PostgresQueue` operation absorbs database
failures — the retry wrapper with a non-`None` fallback never lets an
exception escape, and when every attempt raises (any mix of connection and
non-connection errors) `enqueue`, `enqueue_batch` (with items to insert),
`mark_item_completed` and `mark_item_failed` return `False`,
`dequeue_batch` returns the empty list, `get_queue_health` the empty dict,
and `cleanup_old_items` and `reset_stuck_items` return `0`. -/
theorem postgres_queue_total_on_db_failures (s : DbSettings) :
    (∀ (α : Type) (fb : α) (outcomes : Nat → OpOutcome α),
      ∃ v, queue_execute_with_retry s outcomes (some fb) = .ok v)
    ∧ (∀ outcomes : Nat → OpOutcome Bool, (∀ i, ∃ c, outcomes i = .exn c) →
      postgresQueueEnqueue s outcomes = false)
    ∧ (∀ outcomes : Nat → OpOutcome Bool, (∀ i, ∃ c, outcomes i = .exn c) →
      postgresQueueEnqueueBatch s false outcomes = false)
    ∧ (∀ (β : Type) (outcomes : Nat → OpOutcome (List β)), (∀ i, ∃ c, outcomes i = .exn c) →
      postgresQueueDequeueBatch β s outcomes = [])
    ∧ (∀ (hasDbId : Bool) (outcomes : Nat → OpOutcome Bool), (∀ i, ∃ c, outcomes i = .exn c) →
      postgresQueueMarkItemCompleted hasDbId s outcomes = false)
    ∧ (∀ (hasDbId : Bool) (outcomes : Nat → OpOutcome Bool), (∀ i, ∃ c, outcomes i = .exn c) →
      postgresQueueMarkItemFailed hasDbId s outcomes = false)
    ∧ (∀ outcomes : Nat → OpOutcome (List (String × SourceHealth)),
      (∀ i, ∃ c, outcomes i = .exn c) → postgresQueueGetQueueHealth s outcomes = [])
    ∧ (∀ outcomes : Nat → OpOutcome Nat, (∀ i, ∃ c, outcomes i = .exn c) →
      postgresQueueCleanupOldItems s outcomes = 0)
    ∧ (∀ outcomes : Nat → OpOutcome Nat, (∀ i, ∃ c, outcomes i = .exn c) →
      postgresQueueResetStuckItems s outcomes = 0) := by
  have hfb : ∀ (α : Type) (fb : α) (outcomes : Nat → OpOutcome α),
      (∀ i, ∃ c, outcomes i = .exn c) → queuePublicMethod s outcomes fb = fb := by
    intro α fb outcomes hall
    unfold queuePublicMethod queue_execute_with_retry
    rw [queueGo_allFail outcomes fb hall]
  refine ⟨?_, ?_, ?_, ?_, ?_, ?_, ?_, ?_, ?_⟩
  · intro α fb outcomes
    exact queueGo_isOk outcomes fb s.operationRetries 0
  · intro outcomes hall
    exact hfb Bool false outcomes hall
  · intro outcomes hall
    simpa [postgresQueueEnqueueBatch] using hfb Bool false outcomes hall
  · intro β outcomes hall
    exact hfb (List β) [] outcomes hall
  · intro hasDbId outcomes hall
    cases hasDbId with
    | false => rfl
    | true => simpa [postgresQueueMarkItemCompleted] using hfb Bool false outcomes hall
  · intro hasDbId outcomes hall
    cases hasDbId with
    | false => rfl
    | true => simpa [postgresQueueMarkItemFailed] using hfb Bool false outcomes hall
  · intro outcomes hall
    exact hfb (List (String × SourceHealth)) [] outcomes hall
  · intro outcomes hall
    exact hfb Nat 0 outcomes hall
  · intro outcomes hall
    exact hfb Nat 0 outcomes hall

/-- Concrete instance of the C10 theorem: with `DB_OPERATION_RETRIES = 2`
and every attempt raising a connection-classified error, `enqueue` returns
`False` and `dequeue_batch` the empty list. -/
theorem postgres_queue_total_witness :
    postgresQueueEnqueue ⟨2, 1, 30⟩ (fun _ => .exn true) = false
    ∧ postgresQueueDequeueBatch Nat ⟨2, 1, 30⟩ (fun _ => .exn true) = [] :=
  ⟨(postgres_queue_total_on_db_failures ⟨2, 1, 30⟩).2.1 (fun _ => .exn true)
      (fun _ => ⟨true, rfl⟩),
   (postgres_queue_total_on_db_failures ⟨2, 1, 30⟩).2.2.2.1 Nat (fun _ => .exn true)
      (fun _ => ⟨true, rfl⟩)⟩

/-! ## Claim C4 — webhook signature verification -/

/-- Claim C4: with a configured (non-empty) secret, a webhook request is
accepted exactly when its signature header is present and equal to the
HMAC-SHA256 hex digest of the raw body under the secret (the digest is
never the empty string), and a request failing verification is answered 401
with nothing enqueued; with no secret configured, every request passes
verification for both sources. -/
theorem webhook_signature_verification
    (hmacSha256Hex : String → Bytes → String) (secret : String)
    (payload : Bytes) (signature : Option String)
    (hdigest : hmacSha256Hex secret payload ≠ "") :
    (secret ≠ "" →
      (verify_teamwork_webhook hmacSha256Hex secret payload signature = true
        ↔ signature = some (hmacSha256Hex secret payload)))
    ∧ (secret ≠ "" →
      (verify_missive_webhook hmacSha256Hex secret payload signature = true
        ↔ signature = some (hmacSha256Hex secret payload)))
    ∧ (secret = "" →
      verify_teamwork_webhook hmacSha256Hex secret payload signature = true
      ∧ verify_missive_webhook hmacSha256Hex secret payload signature = true)
    ∧ (∀ (queueState : QueueState) (formData : List (String × String)),
      verify_teamwork_webhook hmacSha256Hex secret payload signature = false →
      teamwork_webhook hmacSha256Hex secret queueState payload signature formData
        = ⟨401, none, []⟩) := by
  have hteam : secret ≠ "" →
      (verify_teamwork_webhook hmacSha256Hex secret payload signature = true
        ↔ signature = some (hmacSha256Hex secret payload)) := by
    intro hs
    unfold verify_teamwork_webhook
    rw [if_neg hs]
    cases signature with
    | none => simp
    | some t =>
      by_cases ht : t = ""
      · subst ht
        simp
        intro h
        exact hdigest h.symm
      · simp [ht]
  have hmiss_eq : verify_missive_webhook hmacSha256Hex secret payload signature
      = verify_teamwork_webhook hmacSha256Hex secret payload signature := rfl
  refine ⟨hteam, ?_, ?_, ?_⟩
  · rw [hmiss_eq]
    exact hteam
  · intro hs
    constructor <;> simp [verify_teamwork_webhook, verify_missive_webhook, hs]
  · intro queueState formData hfail
    unfold teamwork_webhook
    rw [hfail]
    simp

/-- Concrete instance of the C4 theorem: secret `"k"`, digest oracle
returning `"d"`, header `"x"` ≠ digest — the handler answers 401 and
enqueues nothing. -/
theorem webhook_signature_verification_witness :
    teamwork_webhook (fun _ _ => "d") "k" .enqueueOk [1] (some "x")
      [("Task.ID", "42")] = ⟨401, none, []⟩ :=
  (webhook_signature_verification (fun _ _ => "d") "k" [1] (some "x")
    (by decide)).2.2.2 .enqueueOk [("Task.ID", "42")] (by decide)

/-! ## Claim C5 — enqueue failure handling in the webhook handler -/

/-- Claim C5: a webhook POST that passes signature verification and payload
parsing returns 503 with nothing enqueued both when no database connection
is available and when the enqueue reports failure, and returns 200 with
body status `"accepted"` and exactly one enqueued item on success. -/
theorem webhook_enqueue_failure_returns_503
    (hmacSha256Hex : String → Bytes → String) (secret : String)
    (payload : Bytes) (signature : Option String)
    (formData : List (String × String)) (taskId : String)
    (hverify : verify_teamwork_webhook hmacSha256Hex secret payload signature = true)
    (hid : truthyStr (pyOrStr (assocLookup formData "Task.ID")
      (assocLookup formData "ID")) = some taskId) :
    teamwork_webhook hmacSha256Hex secret .noQueue payload signature formData
      = ⟨503, none, []⟩
    ∧ teamwork_webhook hmacSha256Hex secret .enqueueFailed payload signature formData
      = ⟨503, none, []⟩
    ∧ teamwork_webhook hmacSha256Hex secret .enqueueOk payload signature formData
      = ⟨200, some "accepted", [("teamwork", "task.updated", taskId)]⟩ := by
  have hne : formData ≠ [] := by
    intro hnil
    rw [hnil] at hid
    simp [assocLookup, pyOrStr, truthyStr] at hid
  refine ⟨?_, ?_, ?_⟩ <;>
    · unfold teamwork_webhook
      rw [hverify, if_neg hne, hid]
      simp

/-- Concrete instance of the C5 theorem: no secret configured, form body
`Task.ID=42` — database unavailable and enqueue failure both give 503 with
nothing enqueued, success gives 200 `accepted`. -/
theorem webhook_enqueue_failure_returns_503_witness :
    teamwork_webhook (fun _ _ => "d") "" .noQueue [] none [("Task.ID", "42")]
      = ⟨503, none, []⟩
    ∧ teamwork_webhook (fun _ _ => "d") "" .enqueueFailed [] none [("Task.ID", "42")]
      = ⟨503, none, []⟩
    ∧ teamwork_webhook (fun _ _ => "d") "" .enqueueOk [] none [("Task.ID", "42")]
      = ⟨200, some "accepted", [("teamwork", "task.updated", "42")]⟩ :=
  webhook_enqueue_failure_returns_503 (fun _ _ => "d") "" [] none
    [("Task.ID", "42")] "42" (by decide) (by decide)

/-! ## Claim C7 — Missive external id extraction -/

/-- Claim C7, counterexample: a body whose only id field is
`message.conversationId` yields that id (`"X"`) and is accepted and
enqueued with 200, although the claim's four-entry priority list
(`conversation.id`, `conversation_id`, `conversationId`,
`message.conversation_id` — embodied by `claimedExtractMissiveId`) finds
nothing there, which under the claim would mean a 400 with nothing
enqueued. -/
theorem missive_id_extraction_extra_fallback :
    extract_missive_id [("message", .dict [("conversationId", .str "X")])] = "X"
    ∧ claimedExtractMissiveId [("message", .dict [("conversationId", .str "X")])] = ""
    ∧ missive_webhook (fun _ _ => "d") "" .enqueueOk [] none
        (some [("message", .dict [("conversationId", .str "X")])])
      = ⟨200, some "accepted", [("missive", "unknown", "X")]⟩ := by
  refine ⟨rfl, rfl, ?_⟩
  rfl

/-- Claim C7, amended: the `external_id` of a Missive webhook body is the
first non-empty value in the priority list `conversation.id`, top-level
`conversation_id`, top-level `conversationId`, `message.conversation_id`,
`message.conversationId` (one entry more than the claim states), and when
none of these yields a value the handler responds 400 and enqueues
nothing. -/
theorem missive_id_extraction_priority :
    (∀ data : List (String × MVal),
      extract_missive_id data
        = (((missivePriorityFields data).findSome? id).map pyStr).getD "")
    ∧ (∀ (hmacSha256Hex : String → Bytes → String) (secret : String)
        (qs : QueueState) (payload : Bytes) (signature : Option String)
        (data : List (String × MVal)),
      verify_missive_webhook hmacSha256Hex secret payload signature = true →
      extract_missive_id data = "" →
      missive_webhook hmacSha256Hex secret qs payload signature (some data)
        = ⟨400, none, []⟩) := by
  constructor
  · intro data
    unfold extract_missive_id missivePriorityFields
    cases h1 : (match assocLookup data "conversation" with
      | some (MVal.dict conv) => truthyField conv "id"
      | _ => none) with
    | some v => simp [List.findSome?_cons]
    | none =>
      cases h2 : truthyField data "conversation_id" with
      | some v => simp [List.findSome?_cons]
      | none =>
        cases h3 : truthyField data "conversationId" with
        | some v => simp [List.findSome?_cons]
        | none =>
          cases h4 : assocLookup data "message" with
          | none => simp [List.findSome?_cons]
          | some mv =>
            cases mv with
            | str s => simp [List.findSome?_cons]
            | dict msg =>
              cases h5 : truthyField msg "conversation_id" with
              | some v => simp [List.findSome?_cons, h5]
              | none =>
                cases h6 : truthyField msg "conversationId" with
                | some v => simp [List.findSome?_cons, h5, h6]
                | none => simp [List.findSome?_cons, h5, h6]
  · intro hmacSha256Hex secret qs payload signature data hverify hempty
    unfold missive_webhook
    rw [hverify]
    by_cases hd : data.isEmpty
    · simp [hd]
    · simp [hd, hempty]

/-- Concrete instance of the amended C7 theorem: a body with no
conversation id field anywhere is answered 400 with nothing enqueued. -/
theorem missive_id_extraction_priority_witness :
    missive_webhook (fun _ _ => "d") "" .enqueueOk [] none
      (some [("foo", MVal.str "1")]) = ⟨400, none, []⟩ :=
  missive_id_extraction_priority.2 (fun _ _ => "d") "" .enqueueOk [] none
    [("foo", MVal.str "1")] (by decide) (by decide)

/-! ## Claim C8 — backfill window selection -/

/-- Claim C8: with a checkpoint, the backfill window starts at
`last_event_time - BACKFILL_OVERLAP_SECONDS`; without one, a set
`<SOURCE>_PROCESS_AFTER` value parsing as `DD.MM.YYYY` starts the window at
that UTC date, and a missing or malformed value falls back to the default
lookback — 30 days for the Missive source, 5475 days (15 years) for the
Teamwork source. -/
theorem backfill_since_selection (overlap : Int) (pa : Option String) (now : Timestamp) :
    (∀ T : Timestamp,
      teamworkBackfillSince overlap pa (some T) now = T - overlap
      ∧ missiveBackfillSince overlap pa (some T) now = T - overlap)
    ∧ (∀ (s : String) (d m y : Nat), pa = some s → strptimeDMY s = some (d, m, y) →
      teamworkBackfillSince overlap pa none now = epochSecondsOfDate y m d
      ∧ missiveBackfillSince overlap pa none now = epochSecondsOfDate y m d)
    ∧ ((pa = none ∨ ∃ s, pa = some s ∧ strptimeDMY s = none) →
      teamworkBackfillSince overlap pa none now = now - 5475 * secondsPerDay
      ∧ missiveBackfillSince overlap pa none now = now - 30 * secondsPerDay) := by
  refine ⟨?_, ?_, ?_⟩
  · intro T
    exact ⟨rfl, rfl⟩
  · intro s d m y hpa hparse
    subst hpa
    have hs : s ≠ "" := by
      intro hnil
      subst hnil
      rw [show strptimeDMY "" = none from by decide] at hparse
      exact Option.noConfusion hparse
    constructor <;>
      · simp only [teamworkBackfillSince, missiveBackfillSince, backfillSince]
        rw [if_neg hs, hparse]
  · intro hfall
    rcases hfall with hnone | ⟨s, hpa, hparse⟩
    · subst hnone
      exact ⟨rfl, rfl⟩
    · subst hpa
      by_cases hs : s = ""
      · constructor <;>
          · simp only [teamworkBackfillSince, missiveBackfillSince, backfillSince]
            rw [if_pos hs]
      · constructor <;>
          · simp only [teamworkBackfillSince, missiveBackfillSince, backfillSince]
            rw [if_neg hs, hparse]

/-- Concrete instances of the C8 theorem: a parseable
`MISSIVE_PROCESS_AFTER` of `15.06.2020` starts the window at that UTC date
(1,592,179,200); with neither checkpoint nor process-after value the
Missive window is the last 30 days. -/
theorem backfill_since_selection_witness :
    teamworkBackfillSince 120 (some "15.06.2020") none 0 = epochSecondsOfDate 2020 6 15
    ∧ missiveBackfillSince 120 none none 1000000 = 1000000 - 30 * secondsPerDay
    ∧ epochSecondsOfDate 2020 6 15 = 1592179200 :=
  ⟨((backfill_since_selection 120 (some "15.06.2020") 0).2.1 "15.06.2020" 15 6 2020
      rfl (by decide)).1,
   ((backfill_since_selection 120 none 1000000).2.2 (Or.inl rfl)).2,
   by decide⟩

end TWMC
